import Mathlib

/-!
Verification of the cosmetic_detective ticket service (src/api/main.py)
against its natural-language specification.

The embedding models the FastAPI handlers as pure state-passing functions
over a `World` holding the three relational tables (tickets, results,
ticket_events) plus the blob store.  `datetime.utcnow()` becomes an explicit
`now : Nat` argument (each handler is modelled at one instant); SQLAlchemy
row operations become list operations; `ORDER BY` becomes a stable insertion
sort; FastAPI's declarative query validation (`ge=1, le=200` on `limit`)
becomes an explicit range check.  Python truthiness on optional strings
(`if t.assigned_reviewer_id:` is false for both None and the empty string)
is modelled by `truthy`.
-/

namespace CosmeticDetective

/-- Ticket lifecycle status (main.py `StatusType`). -/
inductive Status
  | submitted
  | in_review
  | resolved
  | need_more_info
  | rejected
deriving DecidableEq

/-- Result verdict (main.py `VerdictType`). -/
inductive Verdict
  | authentic
  | inauthentic
  | undetermined
deriving DecidableEq

/-- Audit event kind (main.py `TicketEvent.kind`). -/
inductive EventKind
  | created
  | status_changed
  | claimed
  | unclaimed
  | result_added
deriving DecidableEq

/-- The legal transition table (main.py `ALLOWED_TRANSITIONS`). -/
def ALLOWED_TRANSITIONS : Status → List Status
  | .submitted => [.in_review, .rejected, .need_more_info]
  | .in_review => [.resolved, .rejected, .need_more_info]
  | .need_more_info => [.in_review, .rejected]
  | .rejected => []
  | .resolved => []

/-- A row of the `tickets` table.  `image_urls_json` (a JSON array of
strings) is modelled directly as the list of strings it encodes. -/
structure Ticket where
  id : String
  user_id : Option String
  brand : String
  category : String
  notes : String
  status : Status
  image_urls : List String
  assigned_reviewer_id : Option String
  claimed_at : Option Nat
  created_at : Nat
  updated_at : Nat
deriving DecidableEq

/-- A row of the `results` table. -/
structure Result where
  id : Nat
  ticket_id : String
  verdict : Verdict
  rationale : String
  reviewer_id : Option String
  reviewed_at : Nat
deriving DecidableEq

/-- A row of the `ticket_events` table. -/
structure TicketEvent where
  id : Nat
  ticket_id : String
  kind : EventKind
  actor_id : Option String
  from_status : Option Status
  to_status : Option Status
  at_ : Nat
  note : Option String
deriving DecidableEq

/-- An uploaded image: only the (optional) filename matters to the handler
logic; the bytes are opaque. -/
structure UploadFile where
  filename : Option String
deriving DecidableEq

/-- The persistent state: the three tables (rows in insertion order, with the
autoincrement counters), plus the keys written to the MinIO bucket. -/
structure World where
  tickets : List Ticket
  results : List Result
  events : List TicketEvent
  blobs : List String
  nextResultId : Nat
  nextEventId : Nat
deriving DecidableEq

/-- A fresh database (SQLite autoincrement starts at 1). -/
def World.empty : World := ⟨[], [], [], [], 1, 1⟩

/-- The error taxonomy; each constructor stands for one `HTTPException`
site of main.py (status code and detail text in the comment), plus
FastAPI's declarative request validation. -/
inductive ApiError
  | notFound                 -- 404 "Ticket not found"
  | validationError          -- 400 "Must upload 1-5 images"
  | illegalTransition        -- 400 "Illegal transition: from -> to"
  | conflict                 -- 409 "Ticket already claimed by another reviewer"
  | forbidden                -- 403 "Only the assigned reviewer can unclaim"
  | invalidState             -- 400 "Ticket is not claimed"
  | alreadyExists            -- 400 "Result already exists for this ticket"
  | storageError             -- 500 "Upload failed"
  | requestValidationError   -- 422, FastAPI rejects an out-of-range query param
deriving DecidableEq

deriving instance DecidableEq for Except

/-- Python truthiness of an optional string: `None` and `""` are falsy. -/
def truthy : Option String → Bool
  | none => false
  | some s => s != ""

/-- Primary-key lookup over the rows in order: `db.get(Ticket, ticket_id)`. -/
def findTicket : List Ticket → String → Option Ticket
  | [], _ => none
  | t :: ts, tid => if t.id = tid then some t else findTicket ts tid

/-- `db.get(Ticket, ticket_id)` on the world. -/
def dbGet (w : World) (tid : String) : Option Ticket := findTicket w.tickets tid

/-- Commit a mutation of the ticket row with the given primary key. -/
def updateTicket (w : World) (tid : String) (f : Ticket → Ticket) : World :=
  { w with tickets := w.tickets.map fun t => if t.id = tid then f t else t }

/-- main.py `record_event`: insert one `TicketEvent` row (autoincrement id). -/
def record_event (w : World) (ticket_id : String) (kind : EventKind)
    (actor_id : Option String) (from_status to_status : Option Status)
    (note : Option String) (now : Nat) : World :=
  { w with
    events := w.events ++
      [{ id := w.nextEventId, ticket_id := ticket_id, kind := kind,
         actor_id := actor_id, from_status := from_status,
         to_status := to_status, at_ := now, note := note }],
    nextEventId := w.nextEventId + 1 }

/-- The SQLAlchemy relationship `t.result is not None`: does some row of
`results` reference this ticket? -/
def hasResult (w : World) (tid : String) : Bool :=
  w.results.any fun r => r.ticket_id == tid

/-- Number of result rows owned by a ticket. -/
def countResults (w : World) (tid : String) : Nat :=
  (w.results.filter fun r => r.ticket_id == tid).length

def MINIO_ENDPOINT : String := "http://127.0.0.1:9000"

def BUCKET_NAME : String := "tickets"

/-- The upload loop of `create_ticket`: `uploadOk i` says whether the i-th
`s3_client.upload_fileobj` call succeeds.  Returns the keys uploaded (in
order) and whether every upload succeeded; the loop stops at the first
failure, so the keys uploaded before it remain in the bucket. -/
def uploadImages (ticket_id : String) :
    List UploadFile → (Nat → Bool) → Nat → List String × Bool
  | [], _, _ => ([], true)
  | img :: rest, uploadOk, i =>
    if uploadOk i then
      let filename := match img.filename with
        | some fn => if fn = "" then "image.jpg" else fn
        | none => "image.jpg"
      let key := ticket_id ++ "/" ++ filename
      let r := uploadImages ticket_id rest uploadOk (i + 1)
      (key :: r.1, r.2)
    else ([], false)

/-- main.py `create_ticket` (POST /tickets).  `ticket_id` stands for the
freshly generated uuid4; `uploadOk` is the blob-store oracle. -/
def create_ticket (w : World) (ticket_id brand category notes : String)
    (images : List UploadFile) (user_id : Option String)
    (uploadOk : Nat → Bool) (now : Nat) : World × Except ApiError Ticket :=
  if ¬(1 ≤ images.length ∧ images.length ≤ 5) then
    (w, .error .validationError)
  else
    let up := uploadImages ticket_id images uploadOk 0
    let w1 := { w with blobs := w.blobs ++ up.1 }
    if up.2 then
      let image_urls := up.1.map fun k => MINIO_ENDPOINT ++ "/" ++ BUCKET_NAME ++ "/" ++ k
      let t : Ticket :=
        { id := ticket_id, user_id := user_id, brand := brand, category := category,
          notes := notes, status := .submitted, image_urls := image_urls,
          assigned_reviewer_id := none, claimed_at := none,
          created_at := now, updated_at := now }
      let w2 := { w1 with tickets := w1.tickets ++ [t] }
      let w3 := record_event w2 ticket_id .created user_id none (some .submitted) none now
      (w3, .ok t)
    else (w1, .error .storageError)

/-- main.py `claim_ticket` (POST /tickets/id/claim).  The conflict guard is
Python's `if t.assigned_reviewer_id and t.assigned_reviewer_id != reviewer_id`. -/
def claim_ticket (w : World) (ticket_id reviewer_id : String) (now : Nat) :
    World × Except ApiError Ticket :=
  match dbGet w ticket_id with
  | none => (w, .error .notFound)
  | some t =>
    if truthy t.assigned_reviewer_id ∧ t.assigned_reviewer_id ≠ some reviewer_id then
      (w, .error .conflict)
    else
      let prev_status := t.status
      let new_status :=
        if t.status = .submitted ∨ t.status = .need_more_info then Status.in_review
        else t.status
      let t1 : Ticket :=
        { t with status := new_status, assigned_reviewer_id := some reviewer_id,
                 claimed_at := some now, updated_at := now }
      let w1 := updateTicket w ticket_id fun u =>
        { u with status := new_status, assigned_reviewer_id := some reviewer_id,
                 claimed_at := some now, updated_at := now }
      let w2 := record_event w1 ticket_id .claimed (some reviewer_id)
        (some prev_status) (some new_status) none now
      (w2, .ok t1)

/-- main.py `unclaim_ticket` (POST /tickets/id/unclaim).  The claimed guard
is Python's `if not t.assigned_reviewer_id` (falsy for None and ""). -/
def unclaim_ticket (w : World) (ticket_id reviewer_id : String) (now : Nat) :
    World × Except ApiError Ticket :=
  match dbGet w ticket_id with
  | none => (w, .error .notFound)
  | some t =>
    if truthy t.assigned_reviewer_id = false then (w, .error .invalidState)
    else if t.assigned_reviewer_id ≠ some reviewer_id then (w, .error .forbidden)
    else
      let t1 : Ticket :=
        { t with assigned_reviewer_id := none, claimed_at := none, updated_at := now }
      let w1 := updateTicket w ticket_id fun u =>
        { u with assigned_reviewer_id := none, claimed_at := none, updated_at := now }
      let w2 := record_event w1 ticket_id .unclaimed (some reviewer_id) none none none now
      (w2, .ok t1)

/-- main.py `update_status` (PATCH /tickets/id/status). -/
def update_status (w : World) (ticket_id : String) (to_status : Status) (now : Nat) :
    World × Except ApiError Ticket :=
  match dbGet w ticket_id with
  | none => (w, .error .notFound)
  | some t =>
    if to_status ∉ ALLOWED_TRANSITIONS t.status then (w, .error .illegalTransition)
    else
      let t1 : Ticket := { t with status := to_status, updated_at := now }
      let w1 := updateTicket w ticket_id fun u =>
        { u with status := to_status, updated_at := now }
      let w2 := record_event w1 ticket_id .status_changed none
        (some t.status) (some to_status) none now
      (w2, .ok t1)

/-- main.py `create_result` (POST /tickets/id/result).  `payload.rationale
or ""` maps both None and "" to "". -/
def create_result (w : World) (ticket_id : String) (verdict : Verdict)
    (rationale : Option String) (reviewer_id : Option String) (now : Nat) :
    World × Except ApiError Result :=
  match dbGet w ticket_id with
  | none => (w, .error .notFound)
  | some t =>
    if hasResult w ticket_id then (w, .error .alreadyExists)
    else
      let r : Result :=
        { id := w.nextResultId, ticket_id := ticket_id, verdict := verdict,
          rationale := rationale.getD "", reviewer_id := reviewer_id,
          reviewed_at := now }
      let prev_status := t.status
      let w1 := updateTicket
        { w with results := w.results ++ [r], nextResultId := w.nextResultId + 1 }
        ticket_id fun u => { u with status := .resolved, updated_at := now }
      let w2 := record_event w1 ticket_id .result_added reviewer_id
        (some prev_status) (some .resolved) none now
      (w2, .ok r)

/-- Insertion into a list sorted ascending by `at`; among equal timestamps
the relative order is decided by `tie`. -/
def insertEventByAt (tie : TicketEvent → TicketEvent → Bool) (e : TicketEvent) :
    List TicketEvent → List TicketEvent
  | [] => [e]
  | h :: t =>
    if e.at_ < h.at_ ∨ (e.at_ = h.at_ ∧ tie e h = true) then e :: h :: t
    else h :: insertEventByAt tie e t

/-- `ORDER BY at ASC`: the query sorts by timestamp alone, and SQL leaves
the order of rows with equal timestamps undefined, so that order is a
parameter `tie` of the model — any `tie` is a run the database may
produce. -/
def sortEventsByAt (tie : TicketEvent → TicketEvent → Bool) :
    List TicketEvent → List TicketEvent
  | [] => []
  | h :: t => insertEventByAt tie h (sortEventsByAt tie t)

/-- Stable insertion into a list sorted descending by `created_at`. -/
def insertTicketByCreatedDesc (x : Ticket) : List Ticket → List Ticket
  | [] => [x]
  | h :: t => if h.created_at ≤ x.created_at then x :: h :: t
              else h :: insertTicketByCreatedDesc x t

/-- `ORDER BY created_at DESC` as a stable insertion sort. -/
def sortByCreatedDesc : List Ticket → List Ticket
  | [] => []
  | h :: t => insertTicketByCreatedDesc h (sortByCreatedDesc t)

/-- main.py `list_tickets` (GET /tickets).  FastAPI's `Query(50, ge=1,
le=200)` rejects an out-of-range `limit` with a 422 before the handler
runs; the string filters use Python truthiness (`if user_id:`), and the
unassigned filter fires only on `unassigned is True`. -/
def list_tickets (w : World) (user_id : Option String) (status : Option Status)
    (unassigned : Option Bool) (reviewer_id : Option String) (limit : Int) :
    Except ApiError (List Ticket) :=
  if limit < 1 ∨ 200 < limit then .error .requestValidationError
  else
    let q0 := w.tickets
    let q1 := if truthy user_id then q0.filter (fun t => t.user_id == user_id) else q0
    let q2 := match status with
      | some s => q1.filter fun t => t.status == s
      | none => q1
    let q3 := if unassigned = some true then
        q2.filter (fun t => t.assigned_reviewer_id == none)
      else q2
    let q4 := if truthy reviewer_id then
        q3.filter (fun t => t.assigned_reviewer_id == reviewer_id)
      else q3
    .ok ((sortByCreatedDesc q4).take limit.toNat)

/-- main.py `list_events` (GET /tickets/id/events).  The query orders by
`at` alone; `tie` stands for whatever order the database returns rows with
equal timestamps in. -/
def list_events (w : World) (ticket_id : String)
    (tie : TicketEvent → TicketEvent → Bool) : Except ApiError (List TicketEvent) :=
  match dbGet w ticket_id with
  | none => .error .notFound
  | some _ =>
    .ok (sortEventsByAt tie (w.events.filter fun e => e.ticket_id == ticket_id))

/-- One mutating request against the service. -/
inductive Op
  | submit (ticket_id brand category notes : String) (images : List UploadFile)
      (user_id : Option String) (uploadOk : Nat → Bool)
  | claim (ticket_id reviewer_id : String)
  | unclaim (ticket_id reviewer_id : String)
  | updateStatus (ticket_id : String) (to_status : Status)
  | recordResult (ticket_id : String) (verdict : Verdict)
      (rationale reviewer_id : Option String)

/-- Run one mutating request, keeping the state and the outcome. -/
def applyOp (w : World) (op : Op) (now : Nat) : World × Except ApiError Unit :=
  match op with
  | .submit tid b c n imgs u ok =>
    let r := create_ticket w tid b c n imgs u ok now
    (r.1, r.2.map fun _ => ())
  | .claim tid rev =>
    let r := claim_ticket w tid rev now
    (r.1, r.2.map fun _ => ())
  | .unclaim tid rev =>
    let r := unclaim_ticket w tid rev now
    (r.1, r.2.map fun _ => ())
  | .updateStatus tid s =>
    let r := update_status w tid s now
    (r.1, r.2.map fun _ => ())
  | .recordResult tid v ra re =>
    let r := create_result w tid v ra re now
    (r.1, r.2.map fun _ => ())

/-- The worlds reachable from a fresh database by any sequence of requests.
On a submit, the generated uuid is fresh (the primary-key constraint). -/
inductive Reachable : World → Prop
  | init : Reachable World.empty
  | step (w : World) (op : Op) (now : Nat) (h : Reachable w)
      (fresh : ∀ tid b c n imgs u ok, op = .submit tid b c n imgs u ok →
        dbGet w tid = none) :
      Reachable (applyOp w op now).1

/-- Data-model invariant of the spec: `assigned_reviewer_id` is set iff
`claimed_at` is set, for every ticket of the store. -/
def assignedIffClaimed (w : World) : Prop :=
  ∀ t ∈ w.tickets, t.assigned_reviewer_id.isSome ↔ t.claimed_at.isSome

/-- Uniqueness invariant: every ticket owns at most one result row. -/
def resultsAtMostOne (w : World) : Prop :=
  ∀ tid, countResults w tid ≤ 1

/-- Event-log invariant: ids are strictly increasing in insertion order and
below the autoincrement counter. -/
def eventsIdStrict (w : World) : Prop :=
  w.events.Pairwise (fun a b => a.id < b.id) ∧ ∀ e ∈ w.events, e.id < w.nextEventId

/-- The conjunction of store invariants maintained by every request. -/
def StoreInv (w : World) : Prop :=
  assignedIffClaimed w ∧ resultsAtMostOne w ∧ eventsIdStrict w

/-- The order the spec asserts for event history: ascending timestamp with
the event id as tie-break. -/
def eventLex (e1 e2 : TicketEvent) : Prop :=
  e1.at_ < e2.at_ ∨ (e1.at_ = e2.at_ ∧ e1.id < e2.id)

def exImg : UploadFile := ⟨some "1.jpeg"⟩

/-- A store holding one freshly submitted ticket "t1". -/
def exW1 : World :=
  (create_ticket World.empty "t1" "Dior" "lipstick" "" [exImg] (some "kev")
    (fun _ => true) 0).1

/-- The row of "t1" as submitted. -/
def exT1 : Ticket :=
  { id := "t1", user_id := some "kev", brand := "Dior", category := "lipstick",
    notes := "", status := .submitted,
    image_urls := ["http://127.0.0.1:9000/tickets/t1/1.jpeg"],
    assigned_reviewer_id := none, claimed_at := none, created_at := 0, updated_at := 0 }

/-- The store after "rev_001" claims "t1". -/
def exW2 : World := (claim_ticket exW1 "t1" "rev_001" 1).1

/-- The row of "t1" once claimed by "rev_001". -/
def exT2 : Ticket :=
  { exT1 with
    status := .in_review, assigned_reviewer_id := some "rev_001",
    claimed_at := some 1, updated_at := 1 }

/-- The store after a claim with the empty-string reviewer id. -/
def exWE : World := (claim_ticket exW1 "t1" "" 1).1

/-- The store after "t1" is rejected. -/
def exWR : World := (update_status exW1 "t1" .rejected 1).1

/-- The store where the submit and the claim both happen at instant 0, so
the two events of "t1" carry equal timestamps. -/
def exWT : World := (claim_ticket exW1 "t1" "rev_001" 0).1

/-- The created event of "t1" at instant 0. -/
def exE1 : TicketEvent :=
  { id := 1, ticket_id := "t1", kind := .created, actor_id := some "kev",
    from_status := none, to_status := some .submitted, at_ := 0, note := none }

/-- The claimed event of "t1", also at instant 0. -/
def exE2 : TicketEvent :=
  { id := 2, ticket_id := "t1", kind := .claimed, actor_id := some "rev_001",
    from_status := some .submitted, to_status := some .in_review, at_ := 0, note := none }

/-- A tie order the database may legally use among equal timestamps:
later ids first. -/
def tieRevId (e1 e2 : TicketEvent) : Bool := decide (e2.id < e1.id)


/-! ## Basic lemmas about the store operations -/

theorem findTicket_some_id {l : List Ticket} {tid : String} {t : Ticket}
    (h : findTicket l tid = some t) : t.id = tid := by
  induction l with
  | nil => simp [findTicket] at h
  | cons a l ih =>
    by_cases ha : a.id = tid
    · simp [findTicket, ha] at h
      subst h
      exact ha
    · simp [findTicket, ha] at h
      exact ih h

theorem findTicket_map {l : List Ticket} {tid : String} {g : Ticket → Ticket}
    (hg : ∀ t, (g t).id = t.id) :
    findTicket (l.map g) tid = (findTicket l tid).map g := by
  induction l with
  | nil => rfl
  | cons a l ih =>
    by_cases ha : a.id = tid
    · simp [findTicket, List.map, hg, ha]
    · simp [findTicket, List.map, hg, ha, ih]

theorem dbGet_updateTicket (w : World) (tid : String) (f : Ticket → Ticket)
    (hf : ∀ t, (f t).id = t.id) (tid' : String) :
    dbGet (updateTicket w tid f) tid'
      = (dbGet w tid').map (fun t => if t.id = tid then f t else t) := by
  have hg : ∀ t : Ticket, ((fun t => if t.id = tid then f t else t) t).id = t.id := by
    intro t
    by_cases h : t.id = tid <;> simp [h, hf]
  exact findTicket_map hg

theorem dbGet_record_event (w : World) (tid : String) (k : EventKind)
    (a : Option String) (fs ts : Option Status) (n : Option String) (now : Nat)
    (tid' : String) :
    dbGet (record_event w tid k a fs ts n now) tid' = dbGet w tid' := rfl

theorem findTicket_append (l : List Ticket) (t' : Ticket) (tid : String) :
    findTicket (l ++ [t']) tid
      = match findTicket l tid with
        | some x => some x
        | none => if t'.id = tid then some t' else none := by
  induction l with
  | nil => rfl
  | cons a l ih =>
    by_cases ha : a.id = tid
    · simp [findTicket, ha]
    · simp [findTicket, ha, ih]

/-! ## Lemmas about the stable sorts -/

theorem mem_insertEventByAt {tie : TicketEvent → TicketEvent → Bool}
    {x e : TicketEvent} {l : List TicketEvent} :
    x ∈ insertEventByAt tie e l ↔ x = e ∨ x ∈ l := by
  induction l with
  | nil => simp [insertEventByAt]
  | cons h t ih =>
    by_cases hc : e.at_ < h.at_ ∨ (e.at_ = h.at_ ∧ tie e h = true)
    · simp [insertEventByAt, hc]
    · simp [insertEventByAt, hc, ih]
      tauto

theorem mem_sortEventsByAt {tie : TicketEvent → TicketEvent → Bool}
    {x : TicketEvent} {l : List TicketEvent} :
    x ∈ sortEventsByAt tie l ↔ x ∈ l := by
  induction l with
  | nil => simp [sortEventsByAt]
  | cons h t ih => simp [sortEventsByAt, mem_insertEventByAt, ih]

theorem pairwise_insertEventByAt (tie : TicketEvent → TicketEvent → Bool)
    {e : TicketEvent} {l : List TicketEvent}
    (hl : l.Pairwise fun a b => a.at_ ≤ b.at_) :
    (insertEventByAt tie e l).Pairwise fun a b => a.at_ ≤ b.at_ := by
  induction l with
  | nil => simp [insertEventByAt]
  | cons h t ih =>
    rw [List.pairwise_cons] at hl
    by_cases hc : e.at_ < h.at_ ∨ (e.at_ = h.at_ ∧ tie e h = true)
    · rw [insertEventByAt]
      simp only [hc, if_pos]
      refine List.pairwise_cons.2 ⟨?_, List.pairwise_cons.2 ⟨hl.1, hl.2⟩⟩
      intro y hy
      have heh : e.at_ ≤ h.at_ := by
        rcases hc with hc | hc
        · exact Nat.le_of_lt hc
        · exact Nat.le_of_eq hc.1
      rcases List.mem_cons.1 hy with hy | hy
      · subst hy
        exact heh
      · exact Nat.le_trans heh (hl.1 y hy)
    · rw [insertEventByAt]
      simp only [hc, if_neg, if_false]
      refine List.pairwise_cons.2 ⟨?_, ih hl.2⟩
      intro y hy
      have hhe : h.at_ ≤ e.at_ := by
        rcases Nat.lt_or_ge e.at_ h.at_ with h1 | h1
        · exact absurd (Or.inl h1) hc
        · exact h1
      rcases mem_insertEventByAt.1 hy with hy | hy
      · subst hy
        exact hhe
      · exact hl.1 y hy

theorem pairwise_sortEventsByAt (tie : TicketEvent → TicketEvent → Bool)
    (l : List TicketEvent) :
    (sortEventsByAt tie l).Pairwise fun a b => a.at_ ≤ b.at_ := by
  induction l with
  | nil => simp [sortEventsByAt]
  | cons a l ih => exact pairwise_insertEventByAt tie ih

theorem mem_insertTicketByCreatedDesc {x e : Ticket} {l : List Ticket} :
    x ∈ insertTicketByCreatedDesc e l ↔ x = e ∨ x ∈ l := by
  induction l with
  | nil => simp [insertTicketByCreatedDesc]
  | cons h t ih =>
    by_cases hle : h.created_at ≤ e.created_at
    · simp [insertTicketByCreatedDesc, hle]
    · simp [insertTicketByCreatedDesc, hle, ih]
      tauto

theorem mem_sortByCreatedDesc {x : Ticket} {l : List Ticket} :
    x ∈ sortByCreatedDesc l ↔ x ∈ l := by
  induction l with
  | nil => simp [sortByCreatedDesc]
  | cons h t ih => simp [sortByCreatedDesc, mem_insertTicketByCreatedDesc, ih]

theorem pairwise_insertTicketByCreatedDesc {e : Ticket} {l : List Ticket}
    (hl : l.Pairwise fun a b => b.created_at ≤ a.created_at) :
    (insertTicketByCreatedDesc e l).Pairwise fun a b => b.created_at ≤ a.created_at := by
  induction l with
  | nil => simp [insertTicketByCreatedDesc]
  | cons h t ih =>
    rw [List.pairwise_cons] at hl
    by_cases hle : h.created_at ≤ e.created_at
    · rw [insertTicketByCreatedDesc]
      simp only [hle, if_pos]
      refine List.pairwise_cons.2 ⟨?_, List.pairwise_cons.2 ⟨hl.1, hl.2⟩⟩
      intro y hy
      rcases List.mem_cons.1 hy with hy | hy
      · subst hy; exact hle
      · exact Nat.le_trans (hl.1 y hy) hle
    · rw [insertTicketByCreatedDesc]
      simp only [hle, if_neg, if_false]
      refine List.pairwise_cons.2 ⟨?_, ih hl.2⟩
      intro y hy
      rcases mem_insertTicketByCreatedDesc.1 hy with hy | hy
      · subst hy
        exact Nat.le_of_lt (Nat.lt_of_not_le hle)
      · exact hl.1 y hy

theorem pairwise_sortByCreatedDesc (l : List Ticket) :
    (sortByCreatedDesc l).Pairwise fun a b => b.created_at ≤ a.created_at := by
  induction l with
  | nil => simp [sortByCreatedDesc]
  | cons a l ih => exact pairwise_insertTicketByCreatedDesc ih


/-! ## Preservation of the store invariants -/

theorem filter_append_singleton_length (l : List Result) (r : Result) (tid' : String) :
    ((l ++ [r]).filter fun x => x.ticket_id == tid').length
      = (l.filter fun x => x.ticket_id == tid').length
        + (if r.ticket_id = tid' then 1 else 0) := by
  rw [List.filter_append]
  by_cases h : r.ticket_id = tid' <;>
    simp [List.filter_cons, beq_iff_eq, h]

theorem countResults_zero_of_hasResult_false {w : World} {tid : String}
    (h : hasResult w tid = false) : countResults w tid = 0 := by
  unfold hasResult at h
  unfold countResults
  rw [List.length_eq_zero, List.filter_eq_nil_iff]
  intro a ha hcontra
  rw [List.any_eq_false] at h
  exact h a ha hcontra

theorem hasResult_of_mem {w : World} {r : Result} (h : r ∈ w.results) :
    hasResult w r.ticket_id = true := by
  unfold hasResult
  rw [List.any_eq_true]
  exact ⟨r, h, by simp⟩

theorem assignedIffClaimed_updateTicket {w : World} (tid : String) (f : Ticket → Ticket)
    (h : assignedIffClaimed w)
    (hf : ∀ t, (t.assigned_reviewer_id.isSome ↔ t.claimed_at.isSome) →
      ((f t).assigned_reviewer_id.isSome ↔ (f t).claimed_at.isSome)) :
    assignedIffClaimed (updateTicket w tid f) := by
  intro x hx
  rcases List.mem_map.1 hx with ⟨t, ht, rfl⟩
  by_cases hid : t.id = tid
  · simp only [hid, if_pos]
    exact hf t (h t ht)
  · simp only [hid, if_neg, if_false]
    exact h t ht

theorem storeInv_updateTicket {w : World} (tid : String) (f : Ticket → Ticket)
    (h : StoreInv w)
    (hf : ∀ t, (t.assigned_reviewer_id.isSome ↔ t.claimed_at.isSome) →
      ((f t).assigned_reviewer_id.isSome ↔ (f t).claimed_at.isSome)) :
    StoreInv (updateTicket w tid f) :=
  ⟨assignedIffClaimed_updateTicket tid f h.1 hf, h.2.1, h.2.2⟩

theorem storeInv_record_event {w : World} (tid : String) (k : EventKind)
    (a : Option String) (fs ts : Option Status) (n : Option String) (now : Nat)
    (h : StoreInv w) : StoreInv (record_event w tid k a fs ts n now) := by
  unfold record_event
  refine ⟨h.1, h.2.1, ?_, ?_⟩
  · simp only
    rw [List.pairwise_append]
    refine ⟨h.2.2.1, List.pairwise_singleton _ _, ?_⟩
    intro x hx y hy
    simp only [List.mem_singleton] at hy
    subst hy
    exact h.2.2.2 x hx
  · intro e he
    simp only at he ⊢
    rcases List.mem_append.1 he with he | he
    · exact Nat.lt_trans (h.2.2.2 e he) (Nat.lt_succ_self _)
    · simp only [List.mem_singleton] at he
      subst he
      exact Nat.lt_succ_self _

theorem resultsAtMostOne_append (w : World) (r : Result) (nrid : Nat)
    (h : resultsAtMostOne w) (hnew : hasResult w r.ticket_id = false) :
    resultsAtMostOne { w with results := w.results ++ [r], nextResultId := nrid } := by
  intro tid'
  unfold countResults
  simp only
  rw [filter_append_singleton_length]
  by_cases ht : r.ticket_id = tid'
  · have h0 : countResults w tid' = 0 := by
      rw [← ht]
      exact countResults_zero_of_hasResult_false hnew
    unfold countResults at h0
    simp [h0, ht]
  · simp only [ht, if_neg, if_false, Nat.add_zero]
    exact h tid'

theorem storeInv_create_ticket (w : World) (tid b c n : String)
    (imgs : List UploadFile) (u : Option String) (ok : Nat → Bool) (now : Nat)
    (h : StoreInv w) : StoreInv (create_ticket w tid b c n imgs u ok now).1 := by
  unfold create_ticket
  by_cases hv : 1 ≤ imgs.length ∧ imgs.length ≤ 5
  · rw [if_neg (not_not_intro hv)]
    by_cases hup : (uploadImages tid imgs ok 0).2 = true
    · simp only [hup, if_pos]
      apply storeInv_record_event
      refine ⟨?_, h.2.1, h.2.2⟩
      intro x hx
      simp only at hx
      rcases List.mem_append.1 hx with hx | hx
      · exact h.1 x hx
      · simp only [List.mem_singleton] at hx
        subst hx
        simp
    · simp only [hup, if_neg, if_false]
      exact h
  · rw [if_pos hv]
    exact h

theorem storeInv_claim_ticket (w : World) (tid rev : String) (now : Nat)
    (h : StoreInv w) : StoreInv (claim_ticket w tid rev now).1 := by
  unfold claim_ticket
  cases hdb : dbGet w tid with
  | none => exact h
  | some t =>
    dsimp only
    by_cases hc : truthy t.assigned_reviewer_id = true ∧ t.assigned_reviewer_id ≠ some rev
    · rw [if_pos hc]
      exact h
    · rw [if_neg hc]
      apply storeInv_record_event
      apply storeInv_updateTicket _ _ h
      intro x _
      simp

theorem storeInv_unclaim_ticket (w : World) (tid rev : String) (now : Nat)
    (h : StoreInv w) : StoreInv (unclaim_ticket w tid rev now).1 := by
  unfold unclaim_ticket
  cases hdb : dbGet w tid with
  | none => exact h
  | some t =>
    dsimp only
    by_cases h1 : truthy t.assigned_reviewer_id = false
    · rw [if_pos h1]
      exact h
    · rw [if_neg h1]
      by_cases h2 : t.assigned_reviewer_id ≠ some rev
      · rw [if_pos h2]
        exact h
      · rw [if_neg h2]
        apply storeInv_record_event
        apply storeInv_updateTicket _ _ h
        intro x _
        simp

theorem storeInv_update_status (w : World) (tid : String) (s : Status) (now : Nat)
    (h : StoreInv w) : StoreInv (update_status w tid s now).1 := by
  unfold update_status
  cases hdb : dbGet w tid with
  | none => exact h
  | some t =>
    dsimp only
    by_cases h1 : s ∉ ALLOWED_TRANSITIONS t.status
    · rw [if_pos h1]
      exact h
    · rw [if_neg h1]
      apply storeInv_record_event
      apply storeInv_updateTicket _ _ h
      intro x hx
      exact hx

theorem storeInv_create_result (w : World) (tid : String) (v : Verdict)
    (ra re : Option String) (now : Nat)
    (h : StoreInv w) : StoreInv (create_result w tid v ra re now).1 := by
  unfold create_result
  cases hdb : dbGet w tid with
  | none => exact h
  | some t =>
    dsimp only
    by_cases h1 : hasResult w tid = true
    · rw [if_pos h1]
      exact h
    · rw [if_neg h1]
      apply storeInv_record_event
      apply storeInv_updateTicket
      · exact ⟨h.1, resultsAtMostOne_append w _ _ h.2.1 (Bool.eq_false_iff.2 h1), h.2.2⟩
      · intro x hx
        exact hx

/-- Every reachable world satisfies the store invariants. -/
theorem reachable_storeInv {w : World} (h : Reachable w) : StoreInv w := by
  induction h with
  | init =>
    refine ⟨?_, ?_, ?_, ?_⟩
    · intro t ht
      simp [World.empty] at ht
    · intro tid
      simp [countResults, World.empty]
    · simp [World.empty]
    · intro e he
      simp [World.empty] at he
  | step w op now h fresh ih =>
    cases op with
    | submit tid b c n imgs u ok =>
      exact storeInv_create_ticket w tid b c n imgs u ok now ih
    | claim tid rev => exact storeInv_claim_ticket w tid rev now ih
    | unclaim tid rev => exact storeInv_unclaim_ticket w tid rev now ih
    | updateStatus tid s => exact storeInv_update_status w tid s now ih
    | recordResult tid v ra re => exact storeInv_create_result w tid v ra re now ih


/-! ## Reachability helpers and concrete example states -/

theorem reachable_create_ticket (w : World) (h : Reachable w) (tid b c n : String)
    (imgs : List UploadFile) (u : Option String) (ok : Nat → Bool) (now : Nat)
    (fresh : dbGet w tid = none) :
    Reachable (create_ticket w tid b c n imgs u ok now).1 :=
  Reachable.step w (.submit tid b c n imgs u ok) now h (by
    intro tid' b' c' n' i' u' o' heq
    cases heq
    exact fresh)

theorem reachable_claim_ticket (w : World) (h : Reachable w)
    (tid rev : String) (now : Nat) :
    Reachable (claim_ticket w tid rev now).1 :=
  Reachable.step w (.claim tid rev) now h
    (fun _ _ _ _ _ _ _ heq => Op.noConfusion heq)

theorem reachable_unclaim_ticket (w : World) (h : Reachable w)
    (tid rev : String) (now : Nat) :
    Reachable (unclaim_ticket w tid rev now).1 :=
  Reachable.step w (.unclaim tid rev) now h
    (fun _ _ _ _ _ _ _ heq => Op.noConfusion heq)

theorem reachable_update_status (w : World) (h : Reachable w)
    (tid : String) (st : Status) (now : Nat) :
    Reachable (update_status w tid st now).1 :=
  Reachable.step w (.updateStatus tid st) now h
    (fun _ _ _ _ _ _ _ heq => Op.noConfusion heq)

theorem reachable_create_result (w : World) (h : Reachable w)
    (tid : String) (v : Verdict) (ra re : Option String) (now : Nat) :
    Reachable (create_result w tid v ra re now).1 :=
  Reachable.step w (.recordResult tid v ra re) now h
    (fun _ _ _ _ _ _ _ heq => Op.noConfusion heq)

theorem reach_exW1 : Reachable exW1 :=
  reachable_create_ticket World.empty Reachable.init "t1" "Dior" "lipstick" ""
    [exImg] (some "kev") (fun _ => true) 0 rfl

theorem reach_exW2 : Reachable exW2 :=
  reachable_claim_ticket exW1 reach_exW1 "t1" "rev_001" 1

theorem reach_exWT : Reachable exWT :=
  reachable_claim_ticket exW1 reach_exW1 "t1" "rev_001" 0

theorem reach_exWE : Reachable exWE :=
  reachable_claim_ticket exW1 reach_exW1 "t1" "" 1

theorem reach_exWR : Reachable exWR :=
  reachable_update_status exW1 reach_exW1 "t1" .rejected 1

/-- No status lists itself as a destination in the transition table. -/
theorem self_transition_not_allowed (s : Status) : s ∉ ALLOWED_TRANSITIONS s := by
  cases s <;> decide

/-! ## The claims -/

/-- Claim C2: for an existing ticket, UpdateStatus fails with
IllegalTransition exactly when the target is not in the transition table's
allowed set for the current status; self-transitions always fail; on success
the status becomes the target and updated_at is stamped; on failure the
store is unchanged. -/
theorem C2_update_status (w : World) (tid : String) (to_status : Status) (now : Nat)
    (t : Ticket) (hdb : dbGet w tid = some t) :
    ((update_status w tid to_status now).2 = .error .illegalTransition
        ↔ to_status ∉ ALLOWED_TRANSITIONS t.status)
    ∧ (to_status = t.status → (update_status w tid to_status now).2 = .error .illegalTransition)
    ∧ (∀ e, (update_status w tid to_status now).2 = .error e →
        (update_status w tid to_status now).1 = w)
    ∧ (to_status ∈ ALLOWED_TRANSITIONS t.status →
        dbGet (update_status w tid to_status now).1 tid
          = some { t with status := to_status, updated_at := now }) := by
  have hid : t.id = tid := findTicket_some_id hdb
  unfold update_status
  rw [hdb]
  dsimp only
  by_cases hs : to_status ∉ ALLOWED_TRANSITIONS t.status
  · rw [if_pos hs]
    refine ⟨by simp [hs], fun _ => rfl, fun e _ => rfl, fun hmem => absurd hmem hs⟩
  · rw [if_neg hs]
    refine ⟨by simp [hs], ?_, by intro e he; exact absurd he (by simp), ?_⟩
    · intro heq
      subst heq
      exact absurd (not_not.1 hs) (self_transition_not_allowed t.status)
    · intro _
      dsimp only
      rw [dbGet_record_event, dbGet_updateTicket]
      · rw [hdb]
        simp [hid]
      · intro u
        rfl

/-- Witness for C2 at a concrete submitted ticket and target in_review. -/
theorem C2_update_status_witness :
    dbGet exW1 "t1" = some exT1
    ∧ (((update_status exW1 "t1" .in_review 1).2 = .error .illegalTransition
          ↔ Status.in_review ∉ ALLOWED_TRANSITIONS exT1.status)
        ∧ (Status.in_review = exT1.status →
            (update_status exW1 "t1" .in_review 1).2 = .error .illegalTransition)
        ∧ (∀ e, (update_status exW1 "t1" .in_review 1).2 = .error e →
            (update_status exW1 "t1" .in_review 1).1 = exW1)
        ∧ (Status.in_review ∈ ALLOWED_TRANSITIONS exT1.status →
            dbGet (update_status exW1 "t1" .in_review 1).1 "t1"
              = some { exT1 with status := .in_review, updated_at := 1 })) :=
  ⟨by decide, C2_update_status exW1 "t1" .in_review 1 exT1 (by decide)⟩

/-- Claim C3: in every reachable store, assigned_reviewer_id is set iff
claimed_at is set, for every ticket. -/
theorem C3_assigned_iff_claimed (w : World) (h : Reachable w) : assignedIffClaimed w :=
  (reachable_storeInv h).1

/-- Witness for C3 at a reachable store with a claimed ticket. -/
theorem C3_assigned_iff_claimed_witness : assignedIffClaimed exW2 :=
  C3_assigned_iff_claimed exW2 reach_exW2

/-- Claim C10: claim_ticket checks no status precondition: an existing
ticket in in_review, resolved or rejected that is unassigned or already
assigned to the caller is claimed successfully, the assignment and
claimed_at are set, and the status stays unchanged. -/
theorem C10_claim_ignores_status (w : World) (tid rev : String) (now : Nat)
    (t : Ticket) (hdb : dbGet w tid = some t)
    (hs : t.status = .in_review ∨ t.status = .resolved ∨ t.status = .rejected)
    (ha : t.assigned_reviewer_id = none ∨ t.assigned_reviewer_id = some rev) :
    ∃ w1 t1, claim_ticket w tid rev now = (w1, .ok t1)
      ∧ dbGet w1 tid = some t1
      ∧ t1.assigned_reviewer_id = some rev
      ∧ t1.claimed_at = some now
      ∧ t1.status = t.status := by
  have hid : t.id = tid := findTicket_some_id hdb
  have hnc : ¬(truthy t.assigned_reviewer_id = true ∧ t.assigned_reviewer_id ≠ some rev) := by
    rcases ha with ha | ha
    · rw [ha]
      simp [truthy]
    · rw [ha]
      simp
  have hst : ¬(t.status = .submitted ∨ t.status = .need_more_info) := by
    rcases hs with hs | hs | hs <;> rw [hs] <;> simp
  unfold claim_ticket
  rw [hdb]
  dsimp only
  rw [if_neg hnc, if_neg hst]
  refine ⟨_, _, rfl, ?_, rfl, rfl, rfl⟩
  dsimp only
  rw [dbGet_record_event, dbGet_updateTicket]
  · rw [hdb]
    simp [hid, hst]
  · intro u
    rfl

/-- Witness for C10: claiming the rejected (terminal) unassigned ticket of
exWR succeeds and leaves the status rejected. -/
theorem C10_claim_ignores_status_witness :
    dbGet exWR "t1" = some { exT1 with status := .rejected, updated_at := 1 }
    ∧ (∃ w1 t1, claim_ticket exWR "t1" "rev_001" 2 = (w1, .ok t1)
        ∧ dbGet w1 "t1" = some t1
        ∧ t1.assigned_reviewer_id = some "rev_001"
        ∧ t1.claimed_at = some 2
        ∧ t1.status = { exT1 with status := Status.rejected, updated_at := 1 }.status) :=
  ⟨by decide, C10_claim_ignores_status exWR "t1" "rev_001" 2
    { exT1 with status := .rejected, updated_at := 1 } (by decide)
    (by decide) (by decide)⟩


/-- Claim C5 (amended): for an existing ticket, claim_ticket fails with
Conflict iff the assigned reviewer id holds a non-empty value different
from the caller (Python truthiness makes an empty-string assignment behave
as unassigned); re-claiming by the same reviewer succeeds, keeps the
assignment, re-stamps claimed_at and updated_at, and emits a claimed
event. -/
theorem C5_claim_conflict (w : World) (tid rev : String) (now : Nat)
    (t : Ticket) (hdb : dbGet w tid = some t) :
    ((claim_ticket w tid rev now).2 = .error .conflict
        ↔ ∃ s, t.assigned_reviewer_id = some s ∧ s ≠ "" ∧ s ≠ rev)
    ∧ (t.assigned_reviewer_id = some rev →
        ∃ w1 t1, claim_ticket w tid rev now = (w1, .ok t1)
          ∧ t1.assigned_reviewer_id = some rev
          ∧ t1.claimed_at = some now
          ∧ t1.updated_at = now
          ∧ ∃ e, w1.events = w.events ++ [e]
              ∧ e.kind = .claimed ∧ e.actor_id = some rev) := by
  unfold claim_ticket
  rw [hdb]
  dsimp only
  by_cases hc : truthy t.assigned_reviewer_id = true ∧ t.assigned_reviewer_id ≠ some rev
  · rw [if_pos hc]
    refine ⟨⟨fun _ => ?_, fun _ => rfl⟩, fun hrev => absurd hrev hc.2⟩
    cases hsome : t.assigned_reviewer_id with
    | none =>
      rw [hsome] at hc
      exact absurd hc.1 (by simp [truthy])
    | some sv =>
      refine ⟨sv, rfl, ?_, ?_⟩
      · have := hc.1
        rw [hsome] at this
        simpa [truthy] using this
      · intro hcontra
        apply hc.2
        rw [hsome, hcontra]
  · rw [if_neg hc]
    constructor
    · constructor
      · intro habs
        exact absurd habs (by simp)
      · rintro ⟨sv, hsome, hne, hner⟩
        exfalso
        apply hc
        constructor
        · rw [hsome]
          simp [truthy, hne]
        · rw [hsome]
          simp [hner]
    · intro _
      exact ⟨_, _, rfl, rfl, rfl, rfl, _, rfl, rfl, rfl⟩

/-- Witness for C5: re-claim by the same reviewer on the claimed ticket of
exW2. -/
theorem C5_claim_conflict_witness :
    dbGet exW2 "t1" = some exT2
    ∧ (((claim_ticket exW2 "t1" "rev_001" 2).2 = .error .conflict
          ↔ ∃ s, exT2.assigned_reviewer_id = some s ∧ s ≠ "" ∧ s ≠ "rev_001")
        ∧ (exT2.assigned_reviewer_id = some "rev_001" →
            ∃ w1 t1, claim_ticket exW2 "t1" "rev_001" 2 = (w1, .ok t1)
              ∧ t1.assigned_reviewer_id = some "rev_001"
              ∧ t1.claimed_at = some 2
              ∧ t1.updated_at = 2
              ∧ ∃ e, w1.events = exW2.events ++ [e]
                  ∧ e.kind = .claimed ∧ e.actor_id = some "rev_001")) :=
  ⟨by decide, C5_claim_conflict exW2 "t1" "rev_001" 2 exT2 (by decide)⟩

/-- Counterexample for C5 as stated: in the reachable store exWE the ticket
is assigned the empty-string reviewer, which is set and differs from
"rev_002", yet the claim by "rev_002" does not fail with Conflict: it
succeeds and silently reassigns the ticket. -/
theorem C5_counterexample :
    Reachable exWE
    ∧ (dbGet exWE "t1").map Ticket.assigned_reviewer_id = some (some "")
    ∧ (some "" : Option String) ≠ some "rev_002"
    ∧ (claim_ticket exWE "t1" "rev_002" 2).2 ≠ .error .conflict
    ∧ (dbGet (claim_ticket exWE "t1" "rev_002" 2).1 "t1").map Ticket.assigned_reviewer_id
        = some (some "rev_002") :=
  ⟨reach_exWE, by decide, by decide, by decide, by decide⟩

/-- The upload loop succeeds when every individual upload succeeds. -/
theorem uploadImages_ok (tid : String) (imgs : List UploadFile) (ok : Nat → Bool)
    (h : ∀ i, ok i = true) : ∀ i, (uploadImages tid imgs ok i).2 = true := by
  induction imgs with
  | nil => intro i; rfl
  | cons a l ih =>
    intro i
    simp only [uploadImages, h i, if_true]
    exact ih (i + 1)

/-- Claim C6: create_ticket fails with ValidationError exactly on an image
count outside [1,5], leaving the store (tickets and blobs) untouched; when
the count is legal and the uploads succeed, the new ticket is submitted,
unassigned, unclaimed, has created_at = updated_at, and a created event
with to_status submitted and actor the submitter is appended. -/
theorem C6_create_ticket (w : World) (tid b c n : String) (imgs : List UploadFile)
    (u : Option String) (ok : Nat → Bool) (now : Nat) :
    (¬(1 ≤ imgs.length ∧ imgs.length ≤ 5) →
      create_ticket w tid b c n imgs u ok now = (w, .error .validationError))
    ∧ ((1 ≤ imgs.length ∧ imgs.length ≤ 5) → (∀ i, ok i = true) →
        ∃ w1 t, create_ticket w tid b c n imgs u ok now = (w1, .ok t)
          ∧ t.status = .submitted
          ∧ t.assigned_reviewer_id = none
          ∧ t.claimed_at = none
          ∧ t.created_at = now
          ∧ t.updated_at = now
          ∧ w1.tickets = w.tickets ++ [t]
          ∧ ∃ e, w1.events = w.events ++ [e]
              ∧ e.kind = .created ∧ e.to_status = some .submitted ∧ e.actor_id = u) := by
  constructor
  · intro hv
    unfold create_ticket
    rw [if_pos hv]
  · intro hv hok
    unfold create_ticket
    rw [if_neg (not_not_intro hv)]
    dsimp only
    rw [if_pos (uploadImages_ok tid imgs ok hok 0)]
    exact ⟨_, _, rfl, rfl, rfl, rfl, rfl, rfl, rfl, _, rfl, rfl, rfl, rfl⟩

/-- Claim C7 (amended): unclaim_ticket fails with NotFound on a missing
ticket; with InvalidState when the assigned reviewer id is null or the
empty string (Python truthiness); with Forbidden when it is a non-empty
value different from the caller; on success it clears the assignment and
claimed_at, leaves the status unchanged and emits an unclaimed event. -/
theorem C7_unclaim (w : World) (tid rev : String) (now : Nat) :
    (dbGet w tid = none → unclaim_ticket w tid rev now = (w, .error .notFound))
    ∧ (∀ t, dbGet w tid = some t → truthy t.assigned_reviewer_id = false →
        unclaim_ticket w tid rev now = (w, .error .invalidState))
    ∧ (∀ t s, dbGet w tid = some t → t.assigned_reviewer_id = some s → s ≠ "" → s ≠ rev →
        unclaim_ticket w tid rev now = (w, .error .forbidden))
    ∧ (∀ t, dbGet w tid = some t → t.assigned_reviewer_id = some rev → rev ≠ "" →
        ∃ w1 t1, unclaim_ticket w tid rev now = (w1, .ok t1)
          ∧ dbGet w1 tid = some t1
          ∧ t1.assigned_reviewer_id = none
          ∧ t1.claimed_at = none
          ∧ t1.status = t.status
          ∧ ∃ e, w1.events = w.events ++ [e]
              ∧ e.kind = .unclaimed ∧ e.actor_id = some rev) := by
  refine ⟨?_, ?_, ?_, ?_⟩
  · intro hdb
    unfold unclaim_ticket
    rw [hdb]
  · intro t hdb h1
    unfold unclaim_ticket
    rw [hdb]
    dsimp only
    rw [if_pos h1]
  · intro t sv hdb hsome hne hner
    unfold unclaim_ticket
    rw [hdb]
    dsimp only
    rw [if_neg (by rw [hsome]; simp [truthy, hne])]
    rw [if_pos (by rw [hsome]; simp [hner])]
  · intro t hdb hsome hrne
    have hid : t.id = tid := findTicket_some_id hdb
    unfold unclaim_ticket
    rw [hdb]
    dsimp only
    rw [if_neg (by rw [hsome]; simp [truthy, hrne])]
    rw [if_neg (not_not_intro hsome)]
    refine ⟨_, _, rfl, ?_, rfl, rfl, rfl, _, rfl, rfl, rfl⟩
    dsimp only
    rw [dbGet_record_event, dbGet_updateTicket]
    · rw [hdb]
      simp [hid]
    · intro x
      rfl

/-- Counterexample for C7 as stated: in the reachable store exWE the ticket
has the (non-null) empty-string assigned reviewer and the caller "rev_002"
differs from it, yet unclaim fails with InvalidState ("Ticket is not
claimed"), not Forbidden. -/
theorem C7_counterexample :
    Reachable exWE
    ∧ (dbGet exWE "t1").map Ticket.assigned_reviewer_id = some (some "")
    ∧ "" ≠ "rev_002"
    ∧ (unclaim_ticket exWE "t1" "rev_002" 2).2 = .error .invalidState
    ∧ ApiError.invalidState ≠ ApiError.forbidden :=
  ⟨reach_exWE, by decide, by decide, by decide, by decide⟩


theorem dbGet_set_results (w : World) (res : List Result) (nrid : Nat) (tid : String) :
    dbGet { w with results := res, nextResultId := nrid } tid = dbGet w tid := rfl

/-- Claim C4: for an existing ticket, create_result fails with AlreadyExists
iff a result row already exists, regardless of the ticket's status; failure
leaves the store unchanged; in a reachable store a ticket owns at most one
result; and after a successful call any further call fails with
AlreadyExists. -/
theorem C4_result_uniqueness (w : World) (tid : String) (v : Verdict)
    (ra re : Option String) (now : Nat) (t : Ticket) (hdb : dbGet w tid = some t) :
    ((create_result w tid v ra re now).2 = .error .alreadyExists ↔ hasResult w tid = true)
    ∧ (∀ e, (create_result w tid v ra re now).2 = .error e →
        (create_result w tid v ra re now).1 = w)
    ∧ (Reachable w → countResults w tid ≤ 1)
    ∧ (∀ w1 r, create_result w tid v ra re now = (w1, .ok r) →
        ∀ v2 ra2 re2 now2, (create_result w1 tid v2 ra2 re2 now2).2
          = .error .alreadyExists) := by
  by_cases hr : hasResult w tid = true
  · have heq : create_result w tid v ra re now = (w, .error .alreadyExists) := by
      unfold create_result
      rw [hdb]
      dsimp only
      rw [if_pos hr]
    refine ⟨by simp [heq, hr], fun e _ => by rw [heq], ?_, ?_⟩
    · intro hreach
      exact (reachable_storeInv hreach).2.1 tid
    · intro w1 r habs
      rw [heq] at habs
      simp at habs
  · have heq : create_result w tid v ra re now
        = (record_event
            (updateTicket
              { w with
                results := w.results ++
                  [{ id := w.nextResultId, ticket_id := tid, verdict := v,
                     rationale := ra.getD "", reviewer_id := re, reviewed_at := now }],
                nextResultId := w.nextResultId + 1 }
              tid fun u => { u with status := .resolved, updated_at := now })
            tid .result_added re (some t.status) (some .resolved) none now,
          .ok { id := w.nextResultId, ticket_id := tid, verdict := v,
                rationale := ra.getD "", reviewer_id := re, reviewed_at := now }) := by
      unfold create_result
      rw [hdb]
      dsimp only
      rw [if_neg hr]
    refine ⟨by simp [heq, hr], ?_, ?_, ?_⟩
    · intro e habs
      rw [heq] at habs
      simp at habs
    · intro hreach
      exact (reachable_storeInv hreach).2.1 tid
    · intro w1 r hpair
      rw [heq] at hpair
      injection hpair with hw1 hr2
      subst hw1
      have hid : t.id = tid := findTicket_some_id hdb
      have hdb2 : dbGet
          (record_event
            (updateTicket
              { w with
                results := w.results ++
                  [{ id := w.nextResultId, ticket_id := tid, verdict := v,
                     rationale := ra.getD "", reviewer_id := re, reviewed_at := now }],
                nextResultId := w.nextResultId + 1 }
              tid fun u => { u with status := .resolved, updated_at := now })
            tid .result_added re (some t.status) (some .resolved) none now)
          tid = some { t with status := .resolved, updated_at := now } := by
        rw [dbGet_record_event, dbGet_updateTicket]
        · rw [dbGet_set_results, hdb]
          simp [hid]
        · intro u
          rfl
      intro v2 ra2 re2 now2
      unfold create_result
      rw [hdb2]
      dsimp only
      rw [if_pos ?hasr]
      case hasr =>
        show hasResult _ tid = true
        simp only [hasResult, record_event, updateTicket]
        rw [List.any_append]
        simp

/-- Witness for C4 at the submitted ticket of exW1 with no prior result. -/
theorem C4_result_uniqueness_witness :
    dbGet exW1 "t1" = some exT1
    ∧ (((create_result exW1 "t1" .authentic none (some "rev_001") 5).2
            = .error .alreadyExists ↔ hasResult exW1 "t1" = true)
        ∧ (∀ e, (create_result exW1 "t1" .authentic none (some "rev_001") 5).2 = .error e →
            (create_result exW1 "t1" .authentic none (some "rev_001") 5).1 = exW1)
        ∧ (Reachable exW1 → countResults exW1 "t1" ≤ 1)
        ∧ (∀ w1 r, create_result exW1 "t1" .authentic none (some "rev_001") 5 = (w1, .ok r) →
            ∀ v2 ra2 re2 now2, (create_result w1 "t1" v2 ra2 re2 now2).2
              = .error .alreadyExists)) :=
  ⟨by decide, C4_result_uniqueness exW1 "t1" .authentic none (some "rev_001") 5 exT1 (by decide)⟩

/-- Claim C8 (amended): list_events fails with NotFound exactly when the
ticket does not exist; for an existing ticket it returns exactly the
ticket's events sorted ascending by timestamp, whatever order the database
chooses among equal timestamps — the query orders by `at` alone, so the
event-id tie-break is not guaranteed; an empty list is a valid result. -/
theorem C8_list_events (w : World) (tid : String)
    (tie : TicketEvent → TicketEvent → Bool) :
    (list_events w tid tie = .error .notFound ↔ dbGet w tid = none)
    ∧ ∀ es, list_events w tid tie = .ok es →
        (∀ e, e ∈ es ↔ e ∈ w.events ∧ e.ticket_id = tid)
        ∧ es.Pairwise fun e1 e2 => e1.at_ ≤ e2.at_ := by
  cases hdb : dbGet w tid with
  | none =>
    have heq : list_events w tid tie = .error .notFound := by
      unfold list_events
      rw [hdb]
    refine ⟨by simp [heq, hdb], ?_⟩
    intro es hes
    rw [heq] at hes
    simp at hes
  | some t =>
    have heq : list_events w tid tie
        = .ok (sortEventsByAt tie (w.events.filter fun e => e.ticket_id == tid)) := by
      unfold list_events
      rw [hdb]
    refine ⟨by simp [heq, hdb], ?_⟩
    intro es hes
    rw [heq] at hes
    injection hes with hes
    subst hes
    constructor
    · intro e
      rw [mem_sortEventsByAt, List.mem_filter]
      simp [beq_iff_eq]
    · exact pairwise_sortEventsByAt tie _

/-- Counterexample for C8 as stated: in the reachable store exWT the two
events of "t1" carry equal timestamps (both operations ran at instant 0)
and ids 1 and 2; the query fixes no order among equal timestamps, and
under the legal tie order tieRevId (later ids first) list_events returns
the history with id 2 before id 1 — not sorted with the event id as
tie-break. -/
theorem C8_counterexample :
    Reachable exWT
    ∧ exWT.events = [exE1, exE2]
    ∧ exE1.at_ = exE2.at_
    ∧ exE1.id < exE2.id
    ∧ list_events exWT "t1" tieRevId = .ok [exE2, exE1]
    ∧ ¬ eventLex exE2 exE1 :=
  ⟨reach_exWT, by decide, by decide, by decide, by decide,
    by unfold eventLex; decide⟩

theorem subset_of_ite_filter {c : Prop} [Decidable c] {p : Ticket → Bool}
    {l : List Ticket} {t : Ticket} (h : t ∈ if c then l.filter p else l) : t ∈ l := by
  split at h
  · exact List.mem_of_mem_filter h
  · exact h

theorem prop_of_ite_filter {c : Prop} [Decidable c] {p : Ticket → Bool}
    {l : List Ticket} {t : Ticket} (hc : c) (h : t ∈ if c then l.filter p else l) :
    p t = true := by
  rw [if_pos hc] at h
  exact (List.mem_filter.1 h).2

/-- Claim C9 (amended): list_tickets rejects an out-of-range limit with a
request-validation error (FastAPI ge/le validate, they do not clamp);
otherwise it returns at most limit tickets, newest-created first, drawn
from the store, and each supplied non-empty filter is honoured
conjunctively (an empty-string user or reviewer filter is ignored by the
handler's truthiness checks, as is unassigned=false). -/
theorem C9_list_tickets (w : World) (user_id : Option String) (status : Option Status)
    (unassigned : Option Bool) (reviewer_id : Option String) (limit : Int) :
    (list_tickets w user_id status unassigned reviewer_id limit
        = .error .requestValidationError ↔ (limit < 1 ∨ 200 < limit))
    ∧ ∀ ts, list_tickets w user_id status unassigned reviewer_id limit = .ok ts →
        ts.length ≤ limit.toNat
        ∧ ts.Pairwise (fun a b => b.created_at ≤ a.created_at)
        ∧ (∀ t ∈ ts, t ∈ w.tickets)
        ∧ (∀ uv, user_id = some uv → uv ≠ "" → ∀ t ∈ ts, t.user_id = some uv)
        ∧ (∀ sv, status = some sv → ∀ t ∈ ts, t.status = sv)
        ∧ (unassigned = some true → ∀ t ∈ ts, t.assigned_reviewer_id = none)
        ∧ (∀ rv, reviewer_id = some rv → rv ≠ "" →
            ∀ t ∈ ts, t.assigned_reviewer_id = some rv) := by
  by_cases hlim : limit < 1 ∨ 200 < limit
  · have heq : list_tickets w user_id status unassigned reviewer_id limit
        = .error .requestValidationError := by
      unfold list_tickets
      rw [if_pos hlim]
    refine ⟨by simp [heq, hlim], ?_⟩
    intro ts hts
    rw [heq] at hts
    simp at hts
  · unfold list_tickets
    rw [if_neg hlim]
    dsimp only
    refine ⟨by simp [hlim], ?_⟩
    intro ts hts
    injection hts with hts
    subst hts
    refine ⟨List.length_take_le _ _, ?_, ?_, ?_, ?_, ?_, ?_⟩
    · exact List.Pairwise.sublist (List.take_sublist _ _) (pairwise_sortByCreatedDesc _)
    · intro t ht
      have h4 := mem_sortByCreatedDesc.1 (List.take_subset _ _ ht)
      have h3 := subset_of_ite_filter h4
      have h2 := subset_of_ite_filter h3
      cases status with
      | none => exact subset_of_ite_filter h2
      | some sv => exact subset_of_ite_filter (List.mem_of_mem_filter h2)
    · intro uv huv hne t ht
      subst huv
      have h4 := mem_sortByCreatedDesc.1 (List.take_subset _ _ ht)
      have h3 := subset_of_ite_filter h4
      have h2 := subset_of_ite_filter h3
      have hcond : truthy (some uv) = true := by simp [truthy, hne]
      cases status with
      | none =>
        have := prop_of_ite_filter hcond h2
        simpa [beq_iff_eq] using this
      | some sv =>
        have := prop_of_ite_filter hcond (List.mem_of_mem_filter h2)
        simpa [beq_iff_eq] using this
    · intro sv hsv t ht
      subst hsv
      have h4 := mem_sortByCreatedDesc.1 (List.take_subset _ _ ht)
      have h3 := subset_of_ite_filter h4
      have h2 := subset_of_ite_filter h3
      have := (List.mem_filter.1 h2).2
      simpa [beq_iff_eq] using this
    · intro hu t ht
      subst hu
      have h4 := mem_sortByCreatedDesc.1 (List.take_subset _ _ ht)
      have h3 := subset_of_ite_filter h4
      have := prop_of_ite_filter rfl h3
      simpa [beq_iff_eq] using this
    · intro rv hrv hne t ht
      subst hrv
      have h4 := mem_sortByCreatedDesc.1 (List.take_subset _ _ ht)
      have hcond : truthy (some rv) = true := by simp [truthy, hne]
      have := prop_of_ite_filter hcond h4
      simpa [beq_iff_eq] using this

/-- Counterexample for C9 as stated: an out-of-range limit (0 or 300) is
rejected with a validation error instead of being clamped into [1,200]; in
addition a supplied empty-string reviewer filter is ignored, so the ticket
assigned to "rev_001" is still returned. -/
theorem C9_counterexample :
    list_tickets exW2 none none none none 300 = .error .requestValidationError
    ∧ list_tickets exW2 none none none none 0 = .error .requestValidationError
    ∧ list_tickets exW2 none none none (some "") 50 = .ok exW2.tickets
    ∧ exW2.tickets.map Ticket.assigned_reviewer_id = [some "rev_001"]
    ∧ (some "rev_001" : Option String) ≠ some "" :=
  ⟨by decide, by decide, by decide, by decide, by decide⟩


theorem ticket_eq_of_dbGet_same {w : World} {tid : String} {t t' : Ticket}
    (h1 : dbGet w tid = some t) (h2 : dbGet w tid = some t') : t' = t := by
  rw [h1] at h2
  exact (Option.some.inj h2).symm

/-- Claim C1 (amended): every status change performed by any operation on
any stored ticket moves along an edge of the transition table, or is
claim_ticket's forced move to in_review (only from submitted or
need_more_info), or is create_result's forced move to resolved — which the
code allows from ANY status holding no result yet, including the terminal
status rejected, not only from non-terminal ones. -/
theorem C1_status_transitions (w : World) (op : Op) (now : Nat) (_hre : Reachable w)
    (tid : String) (t t' : Ticket) (hdb : dbGet w tid = some t)
    (hdb' : dbGet (applyOp w op now).1 tid = some t')
    (hch : t'.status ≠ t.status) :
    t'.status ∈ ALLOWED_TRANSITIONS t.status
    ∨ ((∃ rev, op = .claim tid rev)
        ∧ (t.status = .submitted ∨ t.status = .need_more_info)
        ∧ t'.status = .in_review)
    ∨ ((∃ v ra re, op = .recordResult tid v ra re) ∧ t'.status = .resolved) := by
  have hid : t.id = tid := findTicket_some_id hdb
  cases op with
  | submit tid2 b c n imgs u ok =>
    exfalso
    apply hch
    simp only [applyOp] at hdb'
    unfold create_ticket at hdb'
    by_cases hv : 1 ≤ imgs.length ∧ imgs.length ≤ 5
    · rw [if_neg (not_not_intro hv)] at hdb'
      dsimp only at hdb'
      by_cases hup : (uploadImages tid2 imgs ok 0).2 = true
      · rw [if_pos hup] at hdb'
        rw [dbGet_record_event] at hdb'
        unfold dbGet at hdb'
        dsimp only at hdb'
        rw [findTicket_append] at hdb'
        unfold dbGet at hdb
        rw [hdb] at hdb'
        simp only [Option.map_some'] at hdb'
        exact congrArg Ticket.status (Option.some.inj hdb').symm
      · rw [if_neg hup] at hdb'
        dsimp only at hdb'
        exact congrArg Ticket.status (ticket_eq_of_dbGet_same hdb hdb')
    · rw [if_pos hv] at hdb'
      dsimp only at hdb'
      exact congrArg Ticket.status (ticket_eq_of_dbGet_same hdb hdb')
  | claim tid2 rev =>
    simp only [applyOp] at hdb'
    unfold claim_ticket at hdb'
    cases hdb2 : dbGet w tid2 with
    | none =>
      rw [hdb2] at hdb'
      dsimp only at hdb'
      exact absurd (congrArg Ticket.status (ticket_eq_of_dbGet_same hdb hdb')) hch
    | some uT =>
      rw [hdb2] at hdb'
      dsimp only at hdb'
      by_cases hc : truthy uT.assigned_reviewer_id = true ∧ uT.assigned_reviewer_id ≠ some rev
      · rw [if_pos hc] at hdb'
        dsimp only at hdb'
        exact absurd (congrArg Ticket.status (ticket_eq_of_dbGet_same hdb hdb')) hch
      · rw [if_neg hc] at hdb'
        dsimp only at hdb'
        rw [dbGet_record_event, dbGet_updateTicket] at hdb'
        · rw [hdb] at hdb'
          simp only [Option.map_some'] at hdb'
          have hv' := Option.some.inj hdb'
          by_cases hid2 : t.id = tid2
          · rw [if_pos hid2] at hv'
            have htid : tid2 = tid := hid2.symm.trans hid
            subst htid
            have hut : t = uT := by
              rw [hdb] at hdb2
              exact Option.some.inj hdb2
            subst hut
            by_cases hst : t.status = .submitted ∨ t.status = .need_more_info
            · right
              left
              refine ⟨⟨rev, rfl⟩, hst, ?_⟩
              rw [← hv']
              simp [hst]
            · exfalso
              apply hch
              rw [← hv']
              simp [hst]
          · rw [if_neg hid2] at hv'
            exact absurd (congrArg Ticket.status hv').symm hch
        · intro x
          rfl
  | unclaim tid2 rev =>
    exfalso
    apply hch
    simp only [applyOp] at hdb'
    unfold unclaim_ticket at hdb'
    cases hdb2 : dbGet w tid2 with
    | none =>
      rw [hdb2] at hdb'
      dsimp only at hdb'
      exact congrArg Ticket.status (ticket_eq_of_dbGet_same hdb hdb')
    | some uT =>
      rw [hdb2] at hdb'
      dsimp only at hdb'
      by_cases h1 : truthy uT.assigned_reviewer_id = false
      · rw [if_pos h1] at hdb'
        dsimp only at hdb'
        exact congrArg Ticket.status (ticket_eq_of_dbGet_same hdb hdb')
      · rw [if_neg h1] at hdb'
        by_cases h2 : uT.assigned_reviewer_id ≠ some rev
        · rw [if_pos h2] at hdb'
          dsimp only at hdb'
          exact congrArg Ticket.status (ticket_eq_of_dbGet_same hdb hdb')
        · rw [if_neg h2] at hdb'
          dsimp only at hdb'
          rw [dbGet_record_event, dbGet_updateTicket] at hdb'
          · rw [hdb] at hdb'
            simp only [Option.map_some'] at hdb'
            have hv' := Option.some.inj hdb'
            by_cases hid2 : t.id = tid2
            · rw [if_pos hid2] at hv'
              rw [← hv']
            · rw [if_neg hid2] at hv'
              rw [← hv']
          · intro x
            rfl
  | updateStatus tid2 sv =>
    simp only [applyOp] at hdb'
    unfold update_status at hdb'
    cases hdb2 : dbGet w tid2 with
    | none =>
      rw [hdb2] at hdb'
      dsimp only at hdb'
      exact absurd (congrArg Ticket.status (ticket_eq_of_dbGet_same hdb hdb')) hch
    | some uT =>
      rw [hdb2] at hdb'
      dsimp only at hdb'
      by_cases h1 : sv ∉ ALLOWED_TRANSITIONS uT.status
      · rw [if_pos h1] at hdb'
        dsimp only at hdb'
        exact absurd (congrArg Ticket.status (ticket_eq_of_dbGet_same hdb hdb')) hch
      · rw [if_neg h1] at hdb'
        dsimp only at hdb'
        rw [dbGet_record_event, dbGet_updateTicket] at hdb'
        · rw [hdb] at hdb'
          simp only [Option.map_some'] at hdb'
          have hv' := Option.some.inj hdb'
          by_cases hid2 : t.id = tid2
          · rw [if_pos hid2] at hv'
            have htid : tid2 = tid := hid2.symm.trans hid
            subst htid
            have hut : uT = t := by
              rw [hdb] at hdb2
              exact (Option.some.inj hdb2).symm
            left
            rw [← hv']
            exact hut ▸ (not_not.1 h1)
          · rw [if_neg hid2] at hv'
            exact absurd (congrArg Ticket.status hv').symm hch
        · intro x
          rfl
  | recordResult tid2 v ra re =>
    simp only [applyOp] at hdb'
    unfold create_result at hdb'
    cases hdb2 : dbGet w tid2 with
    | none =>
      rw [hdb2] at hdb'
      dsimp only at hdb'
      exact absurd (congrArg Ticket.status (ticket_eq_of_dbGet_same hdb hdb')) hch
    | some uT =>
      rw [hdb2] at hdb'
      dsimp only at hdb'
      by_cases h1 : hasResult w tid2 = true
      · rw [if_pos h1] at hdb'
        dsimp only at hdb'
        exact absurd (congrArg Ticket.status (ticket_eq_of_dbGet_same hdb hdb')) hch
      · rw [if_neg h1] at hdb'
        dsimp only at hdb'
        rw [dbGet_record_event, dbGet_updateTicket] at hdb'
        · rw [dbGet_set_results, hdb] at hdb'
          simp only [Option.map_some'] at hdb'
          have hv' := Option.some.inj hdb'
          by_cases hid2 : t.id = tid2
          · rw [if_pos hid2] at hv'
            right
            right
            have htid : tid2 = tid := hid2.symm.trans hid
            subst htid
            refine ⟨⟨v, ra, re, rfl⟩, ?_⟩
            rw [← hv']
          · rw [if_neg hid2] at hv'
            exact absurd (congrArg Ticket.status hv').symm hch
        · intro x
          rfl

/-- Witness for C1: the claim of the submitted ticket of exW1 changes the
status to in_review, which falls under the claim-override disjunct. -/
theorem C1_status_transitions_witness :
    dbGet exW1 "t1" = some exT1
    ∧ dbGet (applyOp exW1 (.claim "t1" "rev_001") 1).1 "t1" = some exT2
    ∧ exT2.status ≠ exT1.status
    ∧ (exT2.status ∈ ALLOWED_TRANSITIONS exT1.status
        ∨ ((∃ rev, Op.claim "t1" "rev_001" = Op.claim "t1" rev)
            ∧ (exT1.status = .submitted ∨ exT1.status = .need_more_info)
            ∧ exT2.status = .in_review)
        ∨ ((∃ v ra re, Op.claim "t1" "rev_001" = Op.recordResult "t1" v ra re)
            ∧ exT2.status = .resolved)) :=
  ⟨by decide, by decide, by decide,
    C1_status_transitions exW1 (.claim "t1" "rev_001") 1 reach_exW1 "t1" exT1 exT2
      (by decide) (by decide) (by decide)⟩

/-- Counterexample for C1 as stated: in the reachable store exWR the ticket
"t1" is rejected — a terminal status — and holds no result, yet
create_result succeeds and changes the status from rejected to resolved:
a status change that is neither a table edge (rejected has no outgoing
edges) nor claim_ticket's override (rejected is not submitted or
need_more_info), contradicting "never from resolved or rejected". -/
theorem C1_counterexample :
    Reachable exWR
    ∧ (dbGet exWR "t1").map Ticket.status = some .rejected
    ∧ (create_result exWR "t1" .authentic none (some "rev_001") 2).2
        = .ok { id := 1, ticket_id := "t1", verdict := .authentic, rationale := "",
                reviewer_id := some "rev_001", reviewed_at := 2 }
    ∧ (dbGet (create_result exWR "t1" .authentic none (some "rev_001") 2).1 "t1").map
        Ticket.status = some .resolved
    ∧ Status.resolved ∉ ALLOWED_TRANSITIONS .rejected
    ∧ ¬(Status.rejected = .submitted ∨ Status.rejected = .need_more_info)
    ∧ Status.rejected ≠ .resolved :=
  ⟨reach_exWR, by decide, by decide, by decide, by decide, by decide, by decide⟩

end CosmeticDetective
